import Mathlib

/-!
Verification of the URL routing table declared in `articles/urls.py`.

The file declares

    urlpatterns = [
        path('<slug:slug>', ArticleDetailView.as_view(), name='article_detail'),
        path('', ArticleListView.as_view(), name='article_list'),
    ]

We embed the two route entries, the framework's resolution of a request path
against this table (first declared entry whose pattern matches the remainder
of the path wins), and reverse lookup by route name.  The slug path converter
accepts exactly the strings matching `[-a-zA-Z0-9_]+`, and a `path` pattern is
anchored at both ends, so `'<slug:slug>'` matches a remainder iff the whole
remainder is one such string, and `''` matches only the empty remainder.
-/

/-- A character accepted by the slug path converter: the class `[-a-zA-Z0-9_]`
(hyphen, ASCII letter, ASCII digit, underscore). -/
def isSlugChar (c : Char) : Bool :=
  c == '-' || ('a' ≤ c && c ≤ 'z') || ('A' ≤ c && c ≤ 'Z') ||
    ('0' ≤ c && c ≤ '9') || c == '_'

/-- A string accepted by the slug path converter: non-empty and made only of
slug characters (the regex `[-a-zA-Z0-9_]+`). -/
def isSlug (s : String) : Bool :=
  !s.data.isEmpty && s.data.all isSlugChar

/-- The two view handlers the table references.  They are defined in
`articles/views.py`, outside this fragment; here they are opaque capabilities
distinguished only by identity. -/
inductive Handler where
  | articleListView
  | articleDetailView
  deriving DecidableEq

/-- The two path patterns occurring in `urlpatterns`: `'<slug:slug>'`
(one slug-typed parameter, the whole remainder) and `''` (the empty route). -/
inductive PathPattern where
  | slugParam
  | emptyRoute
  deriving DecidableEq

/-- One entry of the route table: a pattern, the handler it dispatches to, and
the symbolic name used for reverse lookup. -/
structure RouteEntry where
  pattern : PathPattern
  handler : Handler
  name : String
  deriving DecidableEq

/-- The table as declared in `articles/urls.py`: the detail entry first, then
the list entry. -/
def urlpatterns : List RouteEntry :=
  [ ⟨PathPattern.slugParam, Handler.articleDetailView, "article_detail"⟩,
    ⟨PathPattern.emptyRoute, Handler.articleListView, "article_list"⟩ ]

/-- A successful resolution: the matched handler, the matched route's name,
and the extracted `slug` keyword parameter when the pattern declares one. -/
structure ResolverMatch where
  handler : Handler
  url_name : String
  slug : Option String
  deriving DecidableEq

/-- Matching one pattern against the remainder of a path.  `none` means the
pattern does not match; `some p` means it matches and extracts parameter `p`
(`some slug` for `'<slug:slug>'`, no parameter for `''`).  Patterns are
anchored: `'<slug:slug>'` consumes the entire remainder. -/
def matchPattern : PathPattern → String → Option (Option String)
  | PathPattern.slugParam, s => if isSlug s then some (some s) else none
  | PathPattern.emptyRoute, s => if s = "" then some none else none

/-- Resolution of a remainder against a table: entries are attempted in
declared order, and the first entry whose pattern matches wins. -/
def resolveTable : List RouteEntry → String → Option ResolverMatch
  | [], _ => none
  | e :: rest, s =>
      match matchPattern e.pattern s with
      | some params => some ⟨e.handler, e.name, params⟩
      | none => resolveTable rest s

/-- The leading slash of a request path.  Modelled from the spec: the
project-level URLconf that mounts this table is not part of the fragment; per
the spec the table serves the application root, so a request path `/<rest>`
is resolved by stripping the leading slash and matching `<rest>` against the
table, and a path with no leading slash reaches no entry. -/
def stripRoot (path : String) : Option String :=
  match path.data with
  | '/' :: rest => some (String.mk rest)
  | _ => none

/-- Resolution of a full request path against the declared table. -/
def resolve (path : String) : Option ResolverMatch :=
  (stripRoot path).bind (resolveTable urlpatterns)

/-- Reverse substitution of arguments into one pattern: `'<slug:slug>'` takes
exactly one argument, which must pass the slug converter, and `''` takes no
argument and produces the empty remainder. -/
def reversePattern : PathPattern → List String → Option String
  | PathPattern.slugParam, [s] => if isSlug s then some s else none
  | PathPattern.slugParam, _ => none
  | PathPattern.emptyRoute, [] => some ""
  | PathPattern.emptyRoute, _ => none

/-- Reverse lookup over a table: the first entry with the requested name whose
pattern accepts the arguments yields `/<remainder>`; otherwise the search
continues, and exhaustion is the no-reverse-match signal (`none`). -/
def reverseTable : List RouteEntry → String → List String → Option String
  | [], _, _ => none
  | e :: rest, nm, args =>
      if e.name = nm then
        match reversePattern e.pattern args with
        | some s => some ("/" ++ s)
        | none => reverseTable rest nm args
      else reverseTable rest nm args

/-- Reverse lookup by route name over the declared table. -/
def reverseLookup (nm : String) (args : List String) : Option String :=
  reverseTable urlpatterns nm args

/-- The table with its two entries swapped: the list entry declared before the
detail entry. -/
def urlpatterns_swapped : List RouteEntry :=
  [ ⟨PathPattern.emptyRoute, Handler.articleListView, "article_list"⟩,
    ⟨PathPattern.slugParam, Handler.articleDetailView, "article_detail"⟩ ]

/-- Resolution of a full request path against the swapped table. -/
def resolve_swapped (path : String) : Option ResolverMatch :=
  (stripRoot path).bind (resolveTable urlpatterns_swapped)

/-- The slash is not a slug character. -/
theorem isSlugChar_slash : isSlugChar '/' = false := by decide

/-- The empty string fails the slug converter. -/
theorem isSlug_empty : isSlug "" = false := by decide

/-- Closed form of resolution against the declared table: a slug remainder
selects the detail entry, the empty remainder selects the list entry, and
anything else matches neither. -/
theorem resolveTable_urlpatterns_eq (s : String) :
    resolveTable urlpatterns s =
      if isSlug s then
        some ⟨Handler.articleDetailView, "article_detail", some s⟩
      else if s = "" then
        some ⟨Handler.articleListView, "article_list", none⟩
      else none := by
  by_cases h2 : s = ""
  · subst h2
    simp [urlpatterns, resolveTable, matchPattern, isSlug_empty]
  · by_cases h1 : isSlug s <;>
      simp [urlpatterns, resolveTable, matchPattern, h1, h2]

/-- Closed form of resolution against the swapped table. -/
theorem resolveTable_swapped_eq (s : String) :
    resolveTable urlpatterns_swapped s =
      if s = "" then
        some ⟨Handler.articleListView, "article_list", none⟩
      else if isSlug s then
        some ⟨Handler.articleDetailView, "article_detail", some s⟩
      else none := by
  by_cases h2 : s = ""
  · subst h2
    simp [urlpatterns_swapped, resolveTable, matchPattern, isSlug_empty]
  · by_cases h1 : isSlug s <;>
      simp [urlpatterns_swapped, resolveTable, matchPattern, h1, h2]

/-- Stripping the remainder of `/<s>`. -/
theorem stripRoot_append (s : String) : stripRoot ("/" ++ s) = some s := rfl

/-- A string accepted by the slug converter is non-empty. -/
theorem ne_empty_of_isSlug {s : String} (h : isSlug s = true) : s ≠ "" := by
  intro he
  rw [he, isSlug_empty] at h
  exact Bool.false_ne_true h

/-- A string accepted by the slug converter contains no slash. -/
theorem no_slash_of_isSlug {s : String} (h : isSlug s = true) : '/' ∉ s.data := by
  intro hm
  simp only [isSlug, Bool.and_eq_true] at h
  have hc := List.all_eq_true.mp h.2 '/' hm
  rw [isSlugChar_slash] at hc
  exact Bool.false_ne_true hc

/-- A remainder ending in a slash matches neither entry. -/
theorem resolveTable_trailing_slash (l : List Char) :
    resolveTable urlpatterns (String.mk (l ++ ['/'])) = none := by
  have h1 : isSlug (String.mk (l ++ ['/'])) = false := by
    simp [isSlug, List.all_append, isSlugChar_slash]
  have h2 : String.mk (l ++ ['/']) ≠ "" := by
    simp [String.ext_iff]
  rw [resolveTable_urlpatterns_eq, h1]
  simp [h2]

/-- For a slug remainder, the full path `/<s>` resolves to the detail route
with the whole remainder as the extracted slug. -/
theorem resolve_slug (s : String) (h : isSlug s = true) :
    resolve ("/" ++ s) =
      some ⟨Handler.articleDetailView, "article_detail", some s⟩ := by
  have he : resolve ("/" ++ s) = resolveTable urlpatterns s := by
    rw [resolve, stripRoot_append]
    rfl
  rw [he, resolveTable_urlpatterns_eq]
  simp [h]

/-- C1 (counterexample): the claim ranges over arbitrary non-empty remainder
strings, but the remainder `a b` (the space is outside the slug converter's
alphabet) resolves to no entry at all rather than to the detail route with
slug `a b`. -/
theorem claim_C1_counterexample :
    ("a b" : String) ≠ "" ∧ resolve "/a b" = none ∧
      resolve "/a b" ≠
        some ⟨Handler.articleDetailView, "article_detail", some "a b"⟩ := by
  decide

/-- C1 (amended): for every path `/<s>` whose non-empty remainder `s` is
drawn from the slug converter's alphabet `[-a-zA-Z0-9_]`, route resolution
selects the detail route `article_detail` and extracts the entire remainder
as the slug parameter. -/
theorem claim_C1 (s : String) (h : isSlug s = true) :
    resolve ("/" ++ s) =
      some ⟨Handler.articleDetailView, "article_detail", some s⟩ :=
  resolve_slug s h

/-- C1 witness at the spec's scenario `/my-first-post`. -/
theorem claim_C1_witness :
    isSlug "my-first-post" = true ∧
      resolve ("/" ++ "my-first-post") =
        some ⟨Handler.articleDetailView, "article_detail", some "my-first-post"⟩ :=
  ⟨by decide, claim_C1 "my-first-post" (by decide)⟩

/-- C2 (counterexample): after swapping the two entries the list route does
not shadow detail requests: `/my-first-post` still resolves to the detail
route, because the empty pattern matches only the empty remainder. -/
theorem claim_C2_counterexample :
    resolve_swapped "/my-first-post" ≠
        some ⟨Handler.articleListView, "article_list", none⟩ ∧
      resolve_swapped "/my-first-post" =
        some ⟨Handler.articleDetailView, "article_detail", some "my-first-post"⟩ := by
  decide

/-- C2 (amended): declaration order is not observable for this table: the
empty pattern matches only the empty remainder, so it never shadows the
detail entry, and the swapped table resolves every path exactly as the
declared one does. -/
theorem claim_C2 (p : String) : resolve_swapped p = resolve p := by
  rw [resolve, resolve_swapped]
  cases hs : stripRoot p with
  | none => rfl
  | some s =>
      simp only [Option.some_bind]
      rw [resolveTable_swapped_eq, resolveTable_urlpatterns_eq]
      by_cases h2 : s = ""
      · subst h2
        simp [isSlug_empty]
      · by_cases h1 : isSlug s <;> simp [h1, h2]

/-- C3: resolution attempts the entries in declared order — the detail entry
first, then the list entry — and returns the first entry whose pattern
matches, together with the extracted typed parameter; the empty pattern
matches only the application root (the empty remainder). -/
theorem claim_C3 :
    (∀ s : String,
        resolveTable urlpatterns s =
          match matchPattern PathPattern.slugParam s with
          | some params =>
              some ⟨Handler.articleDetailView, "article_detail", params⟩
          | none =>
              match matchPattern PathPattern.emptyRoute s with
              | some params =>
                  some ⟨Handler.articleListView, "article_list", params⟩
              | none => none)
    ∧ (∀ s : String, matchPattern PathPattern.emptyRoute s ≠ none ↔ s = "") := by
  constructor
  · intro s
    rfl
  · intro s
    by_cases h : s = "" <;> simp [matchPattern, h]

/-- C4: the root path `/` resolves to the list route `article_list` with no
extracted parameters. -/
theorem claim_C4 :
    resolve "/" = some ⟨Handler.articleListView, "article_list", none⟩ := by
  decide

/-- C5: resolution returns a match or the not-found signal `none`, and it is
`none` exactly when neither entry's pattern matches the remainder — a
malformed slug is merely a failure to match, with no distinct error kind at
this layer. -/
theorem claim_C5 (s : String) :
    resolveTable urlpatterns s = none ↔
      matchPattern PathPattern.slugParam s = none ∧
        matchPattern PathPattern.emptyRoute s = none := by
  rw [resolveTable_urlpatterns_eq]
  by_cases h2 : s = ""
  · subst h2
    simp [matchPattern, isSlug_empty]
  · by_cases h1 : isSlug s <;> simp [matchPattern, h1, h2]

/-- C6: reverse lookup inverts forward matching: for a slug `s`, the name
`article_detail` reverses to `/<s>` and `article_list` to `/`, and resolving
the reversed paths returns the same route and slug again. -/
theorem claim_C6 (s : String) (h : isSlug s = true) :
    reverseLookup "article_detail" [s] = some ("/" ++ s) ∧
      reverseLookup "article_list" [] = some "/" ∧
      resolve ("/" ++ s) =
        some ⟨Handler.articleDetailView, "article_detail", some s⟩ ∧
      resolve "/" = some ⟨Handler.articleListView, "article_list", none⟩ := by
  refine ⟨?_, by decide, resolve_slug s h, by decide⟩
  simp [reverseLookup, reverseTable, reversePattern, urlpatterns, h]

/-- C6 witness at the slug `my-first-post`. -/
theorem claim_C6_witness :
    reverseLookup "article_detail" ["my-first-post"] =
        some ("/" ++ "my-first-post") ∧
      reverseLookup "article_list" [] = some "/" ∧
      resolve ("/" ++ "my-first-post") =
        some ⟨Handler.articleDetailView, "article_detail", some "my-first-post"⟩ ∧
      resolve "/" = some ⟨Handler.articleListView, "article_list", none⟩ :=
  claim_C6 "my-first-post" (by decide)

/-- C7: the completely empty input path (no leading segment at all) matches
no entry and resolution signals not-found. -/
theorem claim_C7 : resolve "" = none := by decide

/-- C8: whenever the detail route matches, the extracted slug is the whole
remainder — non-empty, over the alphabet `[-a-zA-Z0-9_]`, and in particular
without a slash, so a multi-segment remainder never resolves to the detail
route. -/
theorem claim_C8 (s : String) (m : ResolverMatch)
    (h : resolveTable urlpatterns s = some m)
    (hd : m.url_name = "article_detail") :
    m.slug = some s ∧ isSlug s = true ∧ s ≠ "" ∧
      s.data.all isSlugChar = true ∧ '/' ∉ s.data := by
  rw [resolveTable_urlpatterns_eq] at h
  by_cases h1 : isSlug s
  · simp only [h1, if_true] at h
    have hm : (⟨Handler.articleDetailView, "article_detail", some s⟩ :
        ResolverMatch) = m := Option.some.inj h
    subst hm
    have hall : s.data.all isSlugChar = true := by
      simp only [isSlug, Bool.and_eq_true] at h1
      exact h1.2
    exact ⟨rfl, h1, ne_empty_of_isSlug h1, hall, no_slash_of_isSlug h1⟩
  · simp only [h1, if_false] at h
    by_cases h2 : s = ""
    · rw [if_pos h2] at h
      have hm : (⟨Handler.articleListView, "article_list", none⟩ :
          ResolverMatch) = m := Option.some.inj h
      rw [← hm] at hd
      exact absurd hd (by decide)
    · rw [if_neg h2] at h
      exact absurd h (by simp)

/-- C8 witness at the remainder `my-first-post`. -/
theorem claim_C8_witness :
    (ResolverMatch.mk Handler.articleDetailView "article_detail"
        (some "my-first-post")).slug = some "my-first-post" ∧
      isSlug "my-first-post" = true ∧ ("my-first-post" : String) ≠ "" ∧
      "my-first-post".data.all isSlugChar = true ∧
      '/' ∉ "my-first-post".data :=
  claim_C8 "my-first-post"
    ⟨Handler.articleDetailView, "article_detail", some "my-first-post"⟩
    (by decide) rfl

/-- C9: a path with a trailing slash after a non-empty segment matches
neither entry — the slug converter excludes the slash and the empty pattern
requires the empty remainder — so resolution signals not-found. -/
theorem claim_C9 (s : String) (h : s ≠ "") :
    resolve ("/" ++ s ++ "/") = none := by
  have he : resolve ("/" ++ s ++ "/") =
      resolveTable urlpatterns (String.mk (s.data ++ ['/'])) := rfl
  rw [he, resolveTable_trailing_slash]

/-- C9 witness at the path `/my-first-post/`. -/
theorem claim_C9_witness :
    ("my-first-post" : String) ≠ "" ∧
      resolve ("/" ++ "my-first-post" ++ "/") = none :=
  ⟨by decide, claim_C9 "my-first-post" (by decide)⟩

/-- C10: reverse lookup of `article_detail` signals no-reverse-match for
every argument the slug converter rejects: the empty string or any string
with a character outside `[-a-zA-Z0-9_]`. -/
theorem claim_C10 (s : String) (h : isSlug s = false) :
    reverseLookup "article_detail" [s] = none := by
  simp [reverseLookup, reverseTable, reversePattern, urlpatterns, h]

/-- C10 witness at the rejected argument `a b`. -/
theorem claim_C10_witness :
    isSlug "a b" = false ∧ reverseLookup "article_detail" ["a b"] = none :=
  ⟨by decide, claim_C10 "a b" (by decide)⟩
